import Mathlib

/-!
# rspdy: role-reversed SPDY over TLS

A shallow embedding of `rspdy.go`.  The functions of the package
(`DialAndServeTLS`, `NewListener`, `ListenTLS`, `Listener.accept`,
`Listener.AcceptSPDY`) are translated statement by statement.  Calls that
leave the package (`crypto/tls`, `net`, `github.com/kr/spdy`) are answered by
an explicit record of externals and are logged, in order, in a trace of
events, so that statements such as "the connection is closed" or "ServeConn
is never invoked" are statements about the trace.
-/

namespace Rspdy

/-! ## Data model -/

/-- A non-nil Go `error` value, identified by the text of its `Error()` method.
The Go type `error` itself is `Option GoError`, with `none` for `nil`. -/
structure GoError where
  msg : String
deriving DecidableEq, Repr

/-- The result of a Go function: either it returns a value or it panics. -/
inductive Outcome (α : Type) where
  | panic : Outcome α
  | ret (a : α) : Outcome α
deriving DecidableEq, Repr

/-- A `tls.Certificate` value (external type), reduced to its raw bytes. -/
structure Certificate where
  raw : List Nat
deriving DecidableEq, Repr, Inhabited

/-- A `tls.Config` value.  The two fields the package touches are explicit; a
nil slice is `none`, a non-nil slice (possibly empty) is `some`.  All the
remaining fields of the external struct are carried together in `rest`. -/
structure Config (R : Type) where
  NextProtos : Option (List String)
  Certificates : Option (List Certificate)
  rest : R
deriving DecidableEq, Repr

/-- The Go zero value of `tls.Config`, as produced by `new(tls.Config)` and
`var config tls.Config`. -/
def Config.zero {R : Type} [Inhabited R] : Config R :=
  { NextProtos := none, Certificates := none, rest := default }

/-- A `*tls.Conn`: what its `Handshake` method returns and, after the
handshake, the `NegotiatedProtocol` of its `ConnectionState`. -/
structure TLSConn where
  id : Nat
  handshakeErr : Option GoError
  NegotiatedProtocol : String
deriving DecidableEq, Repr

/-- A non-nil `net.Conn` interface value: its dynamic type is `*tls.Conn` or
something else. -/
inductive Conn where
  | tls (c : TLSConn) : Conn
  | other (id : Nat) : Conn
deriving DecidableEq, Repr

/-- A non-nil `net.Listener`: the pair its `Accept` method returns. -/
structure NetListener where
  Accept : Option Conn × Option GoError
deriving DecidableEq, Repr

/-- The `Listener` struct of the package. -/
structure Listener where
  l : Option NetListener
deriving DecidableEq, Repr

/-- An `http.Handler` interface value: nil or a handler object. -/
abbrev Handler := Option Nat

/-- The `spdy.Server` struct, with the one field the package sets. -/
structure Server where
  Handler : Handler
deriving DecidableEq, Repr

/-- A `*spdy.Conn`, the session `spdy.NewConn` builds on a connection. -/
structure SpdyConn where
  conn : Option Conn
deriving DecidableEq, Repr

/-- The calls that leave the package, in the order they are made. -/
inductive Event (R : Type) where
  | netAccept : Event R
  | handshake (c : TLSConn) : Event R
  | connectionState (c : TLSConn) : Event R
  | close (c : Conn) : Event R
  | newConn (c : Option Conn) : Event R
  | loadX509KeyPair (certFile keyFile : String) : Event R
  | tlsListen (network addr : String) (config : Config R) : Event R
  | tlsDial (network addr : String) (config : Config R) : Event R
  | serveConn (srv : Server) (conn : Option TLSConn) : Event R
deriving DecidableEq, Repr

/-- The answers of the external functions the package calls. -/
structure Extern (R : Type) where
  LoadX509KeyPair : String → String → Certificate × Option GoError
  Listen : String → String → Config R → Option NetListener × Option GoError
  Dial : String → String → Config R → Option TLSConn × Option GoError
  ServeConn : Server → Option TLSConn → Option GoError

/-- The memory holding `tls.Config` structs; a `*tls.Config` is `none` for nil
or `some p` for the cell at index `p`. -/
abbrev Heap (R : Type) := List (Config R)

/-! ## The package -/

/-- The function `fmt.Errorf("unknown protocol: %s", s)`. -/
def unknownProtocol (s : String) : GoError :=
  { msg := "unknown protocol: " ++ s }

/-- The function `spdy.NewConn`. -/
def NewConn (c : Option Conn) : SpdyConn :=
  { conn := c }

/-- The function `NewListener`. -/
def NewListener (l : Option NetListener) : Listener :=
  { l := l }

/-- The method `(*Listener).accept`.  Calling `Accept` on a nil `l.l` is a
panic.  The type assertion `c.(*tls.Conn)` fails for a nil `c` and for a
connection of any other dynamic type. -/
def Listener.accept (R : Type) (l : Listener) :
    Outcome (Option Conn × Option GoError) × List (Event R) :=
  match l.l with
  | none => (.panic, [])
  | some nl =>
    match nl.Accept with
    | (_, some err) => (.ret (none, some err), [.netAccept])
    | (c, none) =>
      match c with
      | some (.tls tlsConn) =>
        match tlsConn.handshakeErr with
        | some err => (.ret (none, some err), [.netAccept, .handshake tlsConn])
        | none =>
          let s := tlsConn.NegotiatedProtocol
          if s ≠ "rspdy/3" then
            (.ret (none, some (unknownProtocol s)),
              [.netAccept, .handshake tlsConn, .connectionState tlsConn, .close (.tls tlsConn)])
          else
            (.ret (c, none), [.netAccept, .handshake tlsConn, .connectionState tlsConn])
      | _ => (.ret (c, none), [.netAccept])

/-- The method `(*Listener).AcceptSPDY`. -/
def Listener.AcceptSPDY (R : Type) (l : Listener) :
    Outcome (Option SpdyConn × Option GoError) × List (Event R) :=
  match l.accept R with
  | (.panic, tr) => (.panic, tr)
  | (.ret (_, some err), tr) => (.ret (none, some err), tr)
  | (.ret (c, none), tr) => (.ret (some (NewConn c), none), tr ++ [.newConn c])

/-- The function `ListenTLS`. -/
def ListenTLS {R : Type} [Inhabited R] (ext : Extern R) (addr certFile keyFile : String) :
    (Option Listener × Option GoError) × List (Event R) :=
  let config : Config R := Config.zero
  let config := { config with NextProtos := some ["rspdy/3"] }
  let config := { config with Certificates := some (List.replicate 1 default) }
  match ext.LoadX509KeyPair certFile keyFile with
  | (cert, err) =>
    let config := { config with Certificates := config.Certificates.map (fun cs => cs.set 0 cert) }
    match err with
    | some err => ((none, some err), [.loadX509KeyPair certFile keyFile])
    | none =>
      match ext.Listen "tcp" addr config with
      | (_, some err) =>
        ((none, some err), [.loadX509KeyPair certFile keyFile, .tlsListen "tcp" addr config])
      | (l, none) =>
        ((some { l := l }, none),
          [.loadX509KeyPair certFile keyFile, .tlsListen "tcp" addr config])

/-- The function `DialAndServeTLS`.  `config` is the caller's pointer into
`hp`; the heap after the call is part of the result.  Reading a cell that is
not in the heap is a panic; a Go pointer is nil or valid, so the theorems take
`config` to be `none` or an index below `hp.length`. -/
def DialAndServeTLS {R : Type} [Inhabited R] (ext : Extern R) (hp : Heap R)
    (network addr : String) (config : Option Nat) (h : Handler) :
    Outcome (Option GoError) × Heap R × List (Event R) :=
  let srv : Server := { Handler := h }
  -- config1 := new(tls.Config)
  let config1 := hp.length
  let hp1 := hp ++ [Config.zero]
  -- if config != nil { *config1 = *config }
  let copied : Outcome (Heap R) :=
    match config with
    | none => .ret hp1
    | some p =>
      match hp1[p]? with
      | none => .panic
      | some c => .ret (hp1.set config1 c)
  match copied with
  | .panic => (.panic, hp1, [])
  | .ret hp2 =>
    -- if config1.NextProtos == nil { config1.NextProtos = []string{"rspdy/3"} }
    match hp2[config1]? with
    | none => (.panic, hp2, [])
    | some c1 =>
      let hp3 :=
        match c1.NextProtos with
        | none => hp2.set config1 { c1 with NextProtos := some ["rspdy/3"] }
        | some _ => hp2
      -- conn, err := tls.Dial(network, addr, config1)
      match hp3[config1]? with
      | none => (.panic, hp3, [])
      | some cfg =>
        match ext.Dial network addr cfg with
        | (_, some err) => (.ret (some err), hp3, [.tlsDial network addr cfg])
        | (conn, none) =>
          (.ret (ext.ServeConn srv conn), hp3,
            [.tlsDial network addr cfg, .serveConn srv conn])

/-- A concrete world for the examples: loading succeeds for "cert.pem",
listening succeeds on ":443", dialing succeeds to "example:443" and serving
ends with the error "EOF". -/
def sampleExt : Extern Unit :=
  { LoadX509KeyPair := fun certFile _ =>
      if certFile = "cert.pem" then (⟨[1]⟩, none) else (default, some ⟨"open: no such file"⟩)
    Listen := fun _ addr _ =>
      if addr = ":443" then (some ⟨(some (.other 0), none)⟩, none)
      else (none, some ⟨"listen: address in use"⟩)
    Dial := fun _ addr _ =>
      if addr = "example:443" then (some ⟨1, none, "rspdy/3"⟩, none)
      else (none, some ⟨"dial: connection refused"⟩)
    ServeConn := fun _ _ => some ⟨"EOF"⟩ }

/-- A concrete heap for the examples: cell 0 has a nil `NextProtos`, cell 1 a
non-nil empty one, cell 2 offers "spdy/3". -/
def sampleHeap : Heap Unit :=
  [⟨none, none, ()⟩, ⟨some [], none, ()⟩, ⟨some ["spdy/3"], none, ()⟩]

/-! ## Accepting side -/

/-- C1: for an accepted TLS connection whose handshake succeeds, `accept` and
`AcceptSPDY` return a nil error exactly when the negotiated protocol is
"rspdy/3"; in that case `accept` returns that same connection and
`AcceptSPDY` the session built on it, and for every other string both return
nil together with a non-nil error. -/
theorem accept_ok_iff_rspdy3 (R : Type) (l : Listener) (nl : NetListener) (c : TLSConn)
    (hl : l.l = some nl) (hacc : nl.Accept = (some (.tls c), none))
    (hhs : c.handshakeErr = none) :
    ((∃ r, (l.accept R).1 = .ret (r, none)) ↔ c.NegotiatedProtocol = "rspdy/3") ∧
    ((∃ r, (l.AcceptSPDY R).1 = .ret (r, none)) ↔ c.NegotiatedProtocol = "rspdy/3") ∧
    (c.NegotiatedProtocol = "rspdy/3" →
      (l.accept R).1 = .ret (some (.tls c), none) ∧
      (l.AcceptSPDY R).1 = .ret (some (NewConn (some (.tls c))), none)) ∧
    (c.NegotiatedProtocol ≠ "rspdy/3" →
      ∃ e, (l.accept R).1 = .ret (none, some e) ∧
        (l.AcceptSPDY R).1 = .ret (none, some e)) := by
  by_cases hp : c.NegotiatedProtocol = "rspdy/3"
  · simp [Listener.AcceptSPDY, Listener.accept, hl, hacc, hhs, hp]
  · simp [Listener.AcceptSPDY, Listener.accept, hl, hacc, hhs, hp]

/-- Witness for C1: the empty string and "spdy/3" are refused, "rspdy/3" is
accepted. -/
theorem accept_ok_iff_rspdy3_witness :
    (((∃ r, (Listener.accept Unit ⟨some ⟨(some (.tls ⟨0, none, "spdy/3"⟩), none)⟩⟩).1
          = .ret (r, none)) ↔ "spdy/3" = "rspdy/3") ∧
      ((∃ r, (Listener.AcceptSPDY Unit ⟨some ⟨(some (.tls ⟨0, none, "spdy/3"⟩), none)⟩⟩).1
          = .ret (r, none)) ↔ "spdy/3" = "rspdy/3") ∧
      ("spdy/3" = "rspdy/3" →
        (Listener.accept Unit ⟨some ⟨(some (.tls ⟨0, none, "spdy/3"⟩), none)⟩⟩).1
          = .ret (some (.tls ⟨0, none, "spdy/3"⟩), none) ∧
        (Listener.AcceptSPDY Unit ⟨some ⟨(some (.tls ⟨0, none, "spdy/3"⟩), none)⟩⟩).1
          = .ret (some (NewConn (some (.tls ⟨0, none, "spdy/3"⟩))), none)) ∧
      ("spdy/3" ≠ "rspdy/3" →
        ∃ e, (Listener.accept Unit ⟨some ⟨(some (.tls ⟨0, none, "spdy/3"⟩), none)⟩⟩).1
            = .ret (none, some e) ∧
          (Listener.AcceptSPDY Unit ⟨some ⟨(some (.tls ⟨0, none, "spdy/3"⟩), none)⟩⟩).1
            = .ret (none, some e))) ∧
    (Listener.accept Unit ⟨some ⟨(some (.tls ⟨1, none, ""⟩), none)⟩⟩).1
      = .ret (none, some ⟨"unknown protocol: "⟩) ∧
    (Listener.accept Unit ⟨some ⟨(some (.tls ⟨2, none, "rspdy/3"⟩), none)⟩⟩).1
      = .ret (some (.tls ⟨2, none, "rspdy/3"⟩), none) :=
  ⟨accept_ok_iff_rspdy3 Unit ⟨some ⟨(some (.tls ⟨0, none, "spdy/3"⟩), none)⟩⟩
      ⟨(some (.tls ⟨0, none, "spdy/3"⟩), none)⟩ ⟨0, none, "spdy/3"⟩ rfl rfl rfl,
    by decide, by decide⟩

/-- C2: for an accepted TLS connection whose handshake succeeds with a
negotiated protocol `s` other than "rspdy/3", `AcceptSPDY` returns no session
and the error "unknown protocol: " followed by `s`; the calls it makes are
Accept, Handshake, ConnectionState and Close on that connection, so the
connection is closed and `spdy.NewConn` is never called. -/
theorem AcceptSPDY_mismatch_closes (R : Type) (l : Listener) (nl : NetListener) (c : TLSConn)
    (hl : l.l = some nl) (hacc : nl.Accept = (some (.tls c), none))
    (hhs : c.handshakeErr = none) (hp : c.NegotiatedProtocol ≠ "rspdy/3") :
    (l.AcceptSPDY R).1 = .ret (none, some ⟨"unknown protocol: " ++ c.NegotiatedProtocol⟩) ∧
    (l.AcceptSPDY R).2 =
      [.netAccept, .handshake c, .connectionState c, .close (.tls c)] ∧
    Event.close (.tls c) ∈ (l.AcceptSPDY R).2 ∧
    (∀ x, Event.newConn x ∉ (l.AcceptSPDY R).2) := by
  simp [Listener.AcceptSPDY, Listener.accept, hl, hacc, hhs, hp, unknownProtocol]

/-- Witness for C2: a connection that negotiated "spdy/3". -/
theorem AcceptSPDY_mismatch_closes_witness :
    (Listener.AcceptSPDY Unit ⟨some ⟨(some (.tls ⟨0, none, "spdy/3"⟩), none)⟩⟩).1
      = .ret (none, some ⟨"unknown protocol: " ++ "spdy/3"⟩) ∧
    (Listener.AcceptSPDY Unit ⟨some ⟨(some (.tls ⟨0, none, "spdy/3"⟩), none)⟩⟩).2 =
      [.netAccept, .handshake ⟨0, none, "spdy/3"⟩, .connectionState ⟨0, none, "spdy/3"⟩,
        .close (.tls ⟨0, none, "spdy/3"⟩)] ∧
    Event.close (.tls ⟨0, none, "spdy/3"⟩) ∈
      (Listener.AcceptSPDY Unit ⟨some ⟨(some (.tls ⟨0, none, "spdy/3"⟩), none)⟩⟩).2 ∧
    (∀ x, Event.newConn x ∉
      (Listener.AcceptSPDY Unit ⟨some ⟨(some (.tls ⟨0, none, "spdy/3"⟩), none)⟩⟩).2) :=
  AcceptSPDY_mismatch_closes Unit ⟨some ⟨(some (.tls ⟨0, none, "spdy/3"⟩), none)⟩⟩
    ⟨(some (.tls ⟨0, none, "spdy/3"⟩), none)⟩ ⟨0, none, "spdy/3"⟩ rfl rfl rfl (by decide)

/-- C3: on an accepted TLS connection whose handshake fails, `accept` returns
no connection and the handshake error, but the only calls it makes are Accept
and Handshake: the connection is not closed (the protocol-mismatch path of the
same function does close it). -/
theorem accept_handshake_failure_not_closed :
    Listener.accept Unit
        ⟨some ⟨(some (.tls ⟨7, some ⟨"tls: handshake failure"⟩, ""⟩), none)⟩⟩
      = (.ret (none, some ⟨"tls: handshake failure"⟩),
          [.netAccept, .handshake ⟨7, some ⟨"tls: handshake failure"⟩, ""⟩]) ∧
    Event.close (.tls ⟨7, some ⟨"tls: handshake failure"⟩, ""⟩) ∉
      (Listener.accept Unit
        ⟨some ⟨(some (.tls ⟨7, some ⟨"tls: handshake failure"⟩, ""⟩), none)⟩⟩).2 := by
  decide

/-- C9: when the underlying listener returns a connection that is not a TLS
connection, `accept` makes no call besides Accept (no handshake, no protocol
check, no close) and returns that connection with a nil error, and
`AcceptSPDY` builds a session on it; when the underlying Accept returns an
error, `accept` returns that error and no connection. -/
theorem accept_non_tls_passthrough (R : Type) (l : Listener) (nl : NetListener)
    (hl : l.l = some nl) :
    (∀ id, nl.Accept = (some (.other id), none) →
      l.accept R = (.ret (some (.other id), none), [.netAccept]) ∧
      l.AcceptSPDY R = (.ret (some (NewConn (some (.other id))), none),
        [.netAccept, .newConn (some (.other id))])) ∧
    (∀ c e, nl.Accept = (c, some e) →
      l.accept R = (.ret (none, some e), [.netAccept])) := by
  refine ⟨fun id hacc => ?_, fun c e hacc => ?_⟩
  · simp [Listener.AcceptSPDY, Listener.accept, hl, hacc]
  · simp [Listener.accept, hl, hacc]

/-- Witness for C9: a plain connection behind `NewListener`, and a failing
Accept. -/
theorem accept_non_tls_passthrough_witness :
    ((NewListener (some ⟨(some (.other 5), none)⟩)).accept Unit
        = (.ret (some (.other 5), none), [.netAccept]) ∧
      (NewListener (some ⟨(some (.other 5), none)⟩)).AcceptSPDY Unit
        = (.ret (some (NewConn (some (.other 5))), none),
            [.netAccept, .newConn (some (.other 5))])) ∧
    (NewListener (some ⟨(none, some ⟨"accept: closed"⟩)⟩)).accept Unit
      = (.ret (none, some ⟨"accept: closed"⟩), [.netAccept]) :=
  ⟨(accept_non_tls_passthrough Unit (NewListener (some ⟨(some (.other 5), none)⟩))
      ⟨(some (.other 5), none)⟩ rfl).1 5 rfl,
    (accept_non_tls_passthrough Unit (NewListener (some ⟨(none, some ⟨"accept: closed"⟩)⟩))
      ⟨(none, some ⟨"accept: closed"⟩)⟩ rfl).2 none ⟨"accept: closed"⟩ rfl⟩

/-! ## Dialing side -/

/-- The cell just allocated at the end of the heap holds what was appended. -/
theorem Heap.getElem?_alloc {R : Type} (hp : Heap R) (c : Config R) :
    (hp ++ [c])[hp.length]? = some c := by
  simp

/-- Storing into the cell just allocated replaces the appended value. -/
theorem Heap.set_alloc {R : Type} (hp : Heap R) (c d : Config R) :
    (hp ++ [c]).set hp.length d = hp ++ [d] := by
  induction hp with
  | nil => rfl
  | cons x xs ih => simp [ih]

/-- A cell of the old heap is read unchanged after an allocation. -/
theorem Heap.getElem?_old {R : Type} (hp : Heap R) (c d : Config R) (p : Nat)
    (h : hp[p]? = some d) : (hp ++ [c])[p]? = some d := by
  have hlt : p < hp.length := by
    by_contra hge
    have hnone : hp[p]? = none := List.getElem?_eq_none (Nat.le_of_not_lt hge)
    rw [hnone] at h
    exact Option.noConfusion h
  rw [List.getElem?_append_left hlt]
  exact h

/-- Closed form of `DialAndServeTLS` once the value `cfg0` its private copy
starts from is known: the zero value for a nil `config`, the pointee otherwise. -/
theorem DialAndServeTLS_eq {R : Type} [Inhabited R] (ext : Extern R) (hp : Heap R)
    (network addr : String) (config : Option Nat) (h : Handler) (cfg0 : Config R)
    (hcfg0 : (config = none ∧ cfg0 = Config.zero) ∨ (∃ p, config = some p ∧ hp[p]? = some cfg0)) :
    DialAndServeTLS ext hp network addr config h =
      match ext.Dial network addr
          (match cfg0.NextProtos with
            | none => { cfg0 with NextProtos := some ["rspdy/3"] }
            | some _ => cfg0) with
      | (_, some err) =>
        (.ret (some err),
          hp ++ [match cfg0.NextProtos with
            | none => { cfg0 with NextProtos := some ["rspdy/3"] }
            | some _ => cfg0],
          [.tlsDial network addr
            (match cfg0.NextProtos with
              | none => { cfg0 with NextProtos := some ["rspdy/3"] }
              | some _ => cfg0)])
      | (conn, none) =>
        (.ret (ext.ServeConn { Handler := h } conn),
          hp ++ [match cfg0.NextProtos with
            | none => { cfg0 with NextProtos := some ["rspdy/3"] }
            | some _ => cfg0],
          [.tlsDial network addr
            (match cfg0.NextProtos with
              | none => { cfg0 with NextProtos := some ["rspdy/3"] }
              | some _ => cfg0),
            .serveConn { Handler := h } conn]) := by
  have hrun : ∀ hp2 : Heap R, hp2 = hp ++ [cfg0] →
      (match hp2[hp.length]? with
        | none => ((.panic, hp2, []) : Outcome (Option GoError) × Heap R × List (Event R))
        | some c1 =>
          match (match c1.NextProtos with
              | none => hp2.set hp.length { c1 with NextProtos := some ["rspdy/3"] }
              | some _ => hp2)[hp.length]? with
          | none =>
            (.panic,
              (match c1.NextProtos with
                | none => hp2.set hp.length { c1 with NextProtos := some ["rspdy/3"] }
                | some _ => hp2), [])
          | some cfg =>
            match ext.Dial network addr cfg with
            | (_, some err) =>
              (.ret (some err),
                (match c1.NextProtos with
                  | none => hp2.set hp.length { c1 with NextProtos := some ["rspdy/3"] }
                  | some _ => hp2),
                [.tlsDial network addr cfg])
            | (conn, none) =>
              (.ret (ext.ServeConn { Handler := h } conn),
                (match c1.NextProtos with
                  | none => hp2.set hp.length { c1 with NextProtos := some ["rspdy/3"] }
                  | some _ => hp2),
                [.tlsDial network addr cfg, .serveConn { Handler := h } conn])) =
      match ext.Dial network addr
          (match cfg0.NextProtos with
            | none => { cfg0 with NextProtos := some ["rspdy/3"] }
            | some _ => cfg0) with
      | (_, some err) =>
        (.ret (some err),
          hp ++ [match cfg0.NextProtos with
            | none => { cfg0 with NextProtos := some ["rspdy/3"] }
            | some _ => cfg0],
          [.tlsDial network addr
            (match cfg0.NextProtos with
              | none => { cfg0 with NextProtos := some ["rspdy/3"] }
              | some _ => cfg0)])
      | (conn, none) =>
        (.ret (ext.ServeConn { Handler := h } conn),
          hp ++ [match cfg0.NextProtos with
            | none => { cfg0 with NextProtos := some ["rspdy/3"] }
            | some _ => cfg0],
          [.tlsDial network addr
            (match cfg0.NextProtos with
              | none => { cfg0 with NextProtos := some ["rspdy/3"] }
              | some _ => cfg0),
            .serveConn { Handler := h } conn]) := by
    intro hp2 hhp2
    subst hhp2
    rw [Heap.getElem?_alloc]
    cases hnp : cfg0.NextProtos with
    | none => simp only [hnp, Heap.set_alloc, Heap.getElem?_alloc]
    | some ps => simp only [hnp, Heap.getElem?_alloc]
  rcases hcfg0 with ⟨hnil, hzero⟩ | ⟨p, hsome, hcfg0⟩
  · subst hnil
    subst hzero
    exact hrun _ rfl
  · subst hsome
    unfold DialAndServeTLS
    simp only [Heap.getElem?_old hp Config.zero cfg0 p hcfg0, Heap.set_alloc]
    have hclosed := hrun (hp ++ [cfg0]) rfl
    simp only [Heap.set_alloc] at hclosed
    exact hclosed

/-- A nil or valid `config` pointer determines the value the private copy
starts from. -/
theorem exists_initial_config {R : Type} [Inhabited R] (hp : Heap R) (config : Option Nat)
    (hvalid : ∀ p, config = some p → p < hp.length) :
    ∃ cfg0 : Config R,
      (config = none ∧ cfg0 = Config.zero) ∨ (∃ p, config = some p ∧ hp[p]? = some cfg0) := by
  cases config with
  | none => exact ⟨Config.zero, Or.inl ⟨rfl, rfl⟩⟩
  | some p =>
    have hlt : p < hp.length := hvalid p rfl
    exact ⟨hp[p], Or.inr ⟨p, rfl, List.getElem?_eq_getElem hlt⟩⟩

/-- The two ways a call of `DialAndServeTLS` with a nil or valid `config` can
go: the dial fails, or it succeeds and the connection is served. -/
theorem DialAndServeTLS_cases {R : Type} [Inhabited R] (ext : Extern R) (hp : Heap R)
    (network addr : String) (config : Option Nat) (h : Handler)
    (hvalid : ∀ p, config = some p → p < hp.length) :
    ∃ cfg : Config R,
      (∃ conn err, ext.Dial network addr cfg = (conn, some err) ∧
        DialAndServeTLS ext hp network addr config h =
          (.ret (some err), hp ++ [cfg], [.tlsDial network addr cfg])) ∨
      (∃ conn, ext.Dial network addr cfg = (conn, none) ∧
        DialAndServeTLS ext hp network addr config h =
          (.ret (ext.ServeConn { Handler := h } conn), hp ++ [cfg],
            [.tlsDial network addr cfg, .serveConn { Handler := h } conn])) := by
  obtain ⟨cfg0, hcfg0⟩ := exists_initial_config hp config hvalid
  rw [DialAndServeTLS_eq ext hp network addr config h cfg0 hcfg0]
  refine ⟨match cfg0.NextProtos with
    | none => { cfg0 with NextProtos := some ["rspdy/3"] }
    | some _ => cfg0, ?_⟩
  rcases hd : ext.Dial network addr (match cfg0.NextProtos with
    | none => { cfg0 with NextProtos := some ["rspdy/3"] }
    | some _ => cfg0) with ⟨conn, _ | err⟩
  · exact Or.inr ⟨conn, rfl, rfl⟩
  · exact Or.inl ⟨conn, err, rfl, rfl⟩

/-- Every way `accept` can return a connection with a nil error: the
connection is the one the underlying Accept returned, and the calls made are
Accept, possibly followed by Handshake and ConnectionState. -/
theorem accept_ret_ok (R : Type) (l : Listener) (c : Option Conn) (tr : List (Event R))
    (h : l.accept R = (.ret (c, none), tr)) :
    (∃ nl, l.l = some nl ∧ nl.Accept = (c, none)) ∧
    (tr = [.netAccept] ∨
      ∃ t, tr = [.netAccept, .handshake t, .connectionState t]) := by
  unfold Listener.accept at h
  split at h
  · simp at h
  · rename_i nl hl
    split at h
    · simp at h
    · rename_i c0 hacc
      split at h
      · split at h
        · simp at h
        · dsimp only at h
          split at h
          · simp at h
          · simp only [Prod.mk.injEq, Outcome.ret.injEq] at h
            obtain ⟨⟨hc, -⟩, htr⟩ := h
            subst hc
            exact ⟨⟨nl, hl, hacc⟩, Or.inr ⟨_, htr.symm⟩⟩
      · simp only [Prod.mk.injEq, Outcome.ret.injEq] at h
        obtain ⟨⟨hc, -⟩, htr⟩ := h
        subst hc
        exact ⟨⟨nl, hl, hacc⟩, Or.inl htr.symm⟩

/-- The calls `accept` makes never include ServeConn. -/
theorem accept_no_serveConn (R : Type) (l : Listener) (srv : Server) (conn : Option TLSConn) :
    Event.serveConn srv conn ∉ (l.accept R).2 := by
  unfold Listener.accept
  split
  · simp
  · split
    · simp
    · split
      · split
        · simp
        · dsimp only
          split <;> simp
      · simp

/-- C4: role inversion.  When the dial succeeds, `DialAndServeTLS` hands the
dialed connection to `ServeConn` of a server whose Handler is `h` and returns
exactly what `ServeConn` returns, and it never calls `spdy.NewConn`.  When
`AcceptSPDY` succeeds, the session is `spdy.NewConn` of the connection the
underlying Accept returned, and `AcceptSPDY` never calls `ServeConn`. -/
theorem role_inversion {R : Type} [Inhabited R] (ext : Extern R) (hp : Heap R)
    (network addr : String) (config : Option Nat) (h : Handler) (l : Listener)
    (hvalid : ∀ p, config = some p → p < hp.length) :
    (∃ cfg, (DialAndServeTLS ext hp network addr config h).2.2.head? =
        some (.tlsDial network addr cfg)) ∧
    (∀ cfg conn,
      Event.tlsDial network addr cfg ∈ (DialAndServeTLS ext hp network addr config h).2.2 →
      ext.Dial network addr cfg = (conn, none) →
      (DialAndServeTLS ext hp network addr config h).1 =
          .ret (ext.ServeConn { Handler := h } conn) ∧
        (DialAndServeTLS ext hp network addr config h).2.2 =
          [.tlsDial network addr cfg, .serveConn { Handler := h } conn]) ∧
    (∀ x, Event.newConn x ∉ (DialAndServeTLS ext hp network addr config h).2.2) ∧
    (∀ sess, (l.AcceptSPDY R).1 = .ret (some sess, none) →
      ∃ nl c, l.l = some nl ∧ nl.Accept = (c, none) ∧
        (l.accept R).1 = .ret (c, none) ∧ sess = NewConn c ∧
        (l.AcceptSPDY R).2 = (l.accept R).2 ++ [.newConn c]) ∧
    (∀ srv conn, Event.serveConn srv conn ∉ (l.AcceptSPDY R).2) := by
  refine ⟨?_, ?_, ?_, ?_, ?_⟩
  · obtain ⟨cfg, ⟨conn, err, -, hrun⟩ | ⟨conn, -, hrun⟩⟩ :=
      DialAndServeTLS_cases ext hp network addr config h hvalid
    · exact ⟨cfg, by rw [hrun]; rfl⟩
    · exact ⟨cfg, by rw [hrun]; rfl⟩
  · intro cfg1 conn1 hmem hdial
    obtain ⟨cfg, ⟨conn, err, hd, hrun⟩ | ⟨conn, hd, hrun⟩⟩ :=
      DialAndServeTLS_cases ext hp network addr config h hvalid
    · rw [hrun] at hmem
      simp only [List.mem_singleton, Event.tlsDial.injEq, true_and] at hmem
      subst hmem
      rw [hd] at hdial
      simp at hdial
    · rw [hrun] at hmem ⊢
      simp only [List.mem_cons, Event.tlsDial.injEq, true_and, List.mem_singleton,
        reduceCtorEq, or_false, List.not_mem_nil] at hmem
      subst hmem
      rw [hd] at hdial
      simp only [Prod.mk.injEq, and_true] at hdial
      subst hdial
      exact ⟨rfl, rfl⟩
  · intro x
    obtain ⟨cfg, ⟨conn, err, -, hrun⟩ | ⟨conn, -, hrun⟩⟩ :=
      DialAndServeTLS_cases ext hp network addr config h hvalid
    · rw [hrun]; simp
    · rw [hrun]; simp
  · intro sess hs
    unfold Listener.AcceptSPDY at hs ⊢
    rcases hacc : l.accept R with ⟨_ | ⟨c, _ | e⟩, tr⟩
    · rw [hacc] at hs; simp at hs
    · rw [hacc] at hs
      simp only [Outcome.ret.injEq, Prod.mk.injEq, Option.some.injEq, and_true] at hs
      obtain ⟨⟨nl, hl, hnl⟩, -⟩ := accept_ret_ok R l c tr hacc
      exact ⟨nl, c, hl, hnl, rfl, hs.symm, rfl⟩
    · rw [hacc] at hs; simp at hs
  · intro srv conn
    have hno := accept_no_serveConn R l srv conn
    unfold Listener.AcceptSPDY
    rcases hacc : l.accept R with ⟨_ | ⟨c, _ | e⟩, tr⟩ <;> rw [hacc] at hno <;> simpa using hno

/-- Witness for C4: a successful dial to "example:443" with handler 1, and a
listener whose next connection negotiated "rspdy/3". -/
theorem role_inversion_witness :
    ((DialAndServeTLS sampleExt sampleHeap "tcp" "example:443" (some 0) (some 1)).1 =
        .ret (some ⟨"EOF"⟩) ∧
      (DialAndServeTLS sampleExt sampleHeap "tcp" "example:443" (some 0) (some 1)).2.2 =
        [.tlsDial "tcp" "example:443" ⟨some ["rspdy/3"], none, ()⟩,
          .serveConn ⟨some 1⟩ (some ⟨1, none, "rspdy/3"⟩)]) ∧
    (∃ nl c, (Listener.mk (some ⟨(some (.tls ⟨2, none, "rspdy/3"⟩), none)⟩)).l = some nl ∧
      nl.Accept = (c, none) ∧
      (Listener.accept Unit ⟨some ⟨(some (.tls ⟨2, none, "rspdy/3"⟩), none)⟩⟩).1 =
        .ret (c, none) ∧
      NewConn (some (.tls ⟨2, none, "rspdy/3"⟩)) = NewConn c ∧
      (Listener.AcceptSPDY Unit ⟨some ⟨(some (.tls ⟨2, none, "rspdy/3"⟩), none)⟩⟩).2 =
        (Listener.accept Unit ⟨some ⟨(some (.tls ⟨2, none, "rspdy/3"⟩), none)⟩⟩).2 ++
          [.newConn c]) :=
  ⟨(role_inversion sampleExt sampleHeap "tcp" "example:443" (some 0) (some 1)
      ⟨some ⟨(some (.tls ⟨2, none, "rspdy/3"⟩), none)⟩⟩
      (fun p hp => Option.some.inj hp ▸ (by decide))).2.1
      ⟨some ["rspdy/3"], none, ()⟩ (some ⟨1, none, "rspdy/3"⟩) (by decide) (by decide),
    (role_inversion sampleExt sampleHeap "tcp" "example:443" (some 0) (some 1)
      ⟨some ⟨(some (.tls ⟨2, none, "rspdy/3"⟩), none)⟩⟩
      (fun p hp => Option.some.inj hp ▸ (by decide))).2.2.2.1
      (NewConn (some (.tls ⟨2, none, "rspdy/3"⟩))) (by decide)⟩

/-- C5: the configuration `DialAndServeTLS` passes to its one dial is the zero
configuration with NextProtos ["rspdy/3"] when `config` is nil, the caller's
configuration with NextProtos ["rspdy/3"] when the caller's NextProtos is nil,
and the caller's configuration itself when its NextProtos is non-nil, even
when empty. -/
theorem DialAndServeTLS_dial_config {R : Type} [Inhabited R] (ext : Extern R) (hp : Heap R)
    (network addr : String) (h : Handler) :
    (∃ tl, (DialAndServeTLS ext hp network addr none h).2.2 =
        .tlsDial network addr
          { NextProtos := some ["rspdy/3"], Certificates := none, rest := default } :: tl ∧
      ∀ n a c, Event.tlsDial n a c ∉ tl) ∧
    (∀ (p : Nat) (c : Config R), hp[p]? = some c → c.NextProtos = none →
      ∃ tl, (DialAndServeTLS ext hp network addr (some p) h).2.2 =
          .tlsDial network addr
            { NextProtos := some ["rspdy/3"], Certificates := c.Certificates,
              rest := c.rest } :: tl ∧
        ∀ n a c, Event.tlsDial n a c ∉ tl) ∧
    (∀ (p : Nat) (c : Config R) (ps : List String), hp[p]? = some c → c.NextProtos = some ps →
      ∃ tl, (DialAndServeTLS ext hp network addr (some p) h).2.2 =
          .tlsDial network addr c :: tl ∧
        c.NextProtos = some ps ∧ ∀ n a c, Event.tlsDial n a c ∉ tl) := by
  refine ⟨?_, fun p c hc hnp => ?_, fun p c ps hc hnp => ?_⟩
  · rw [DialAndServeTLS_eq ext hp network addr none h Config.zero (Or.inl ⟨rfl, rfl⟩)]
    simp only [Config.zero]
    rcases ext.Dial network addr
      { NextProtos := some ["rspdy/3"], Certificates := none, rest := default }
      with ⟨conn, _ | err⟩ <;> simp
  · rw [DialAndServeTLS_eq ext hp network addr (some p) h c (Or.inr ⟨p, rfl, hc⟩)]
    simp only [hnp]
    rcases ext.Dial network addr
      { NextProtos := some ["rspdy/3"], Certificates := c.Certificates, rest := c.rest }
      with ⟨conn, _ | err⟩ <;> simp
  · rw [DialAndServeTLS_eq ext hp network addr (some p) h c (Or.inr ⟨p, rfl, hc⟩)]
    simp only [hnp]
    rcases ext.Dial network addr c with ⟨conn, _ | err⟩ <;> simp

/-- Witness for C5: a nil NextProtos (cell 0) is replaced, a non-nil empty one
(cell 1) and "spdy/3" (cell 2) are kept. -/
theorem DialAndServeTLS_dial_config_witness :
    (∃ tl, (DialAndServeTLS sampleExt sampleHeap "tcp" "example:443" (some 0) none).2.2 =
        .tlsDial "tcp" "example:443" ⟨some ["rspdy/3"], none, ()⟩ :: tl ∧
      ∀ n a c, Event.tlsDial n a c ∉ tl) ∧
    (∃ tl, (DialAndServeTLS sampleExt sampleHeap "tcp" "example:443" (some 1) none).2.2 =
        .tlsDial "tcp" "example:443" ⟨some [], none, ()⟩ :: tl ∧
      (⟨some [], none, ()⟩ : Config Unit).NextProtos = some [] ∧
      ∀ n a c, Event.tlsDial n a c ∉ tl) ∧
    (∃ tl, (DialAndServeTLS sampleExt sampleHeap "tcp" "example:443" (some 2) none).2.2 =
        .tlsDial "tcp" "example:443" ⟨some ["spdy/3"], none, ()⟩ :: tl ∧
      (⟨some ["spdy/3"], none, ()⟩ : Config Unit).NextProtos = some ["spdy/3"] ∧
      ∀ n a c, Event.tlsDial n a c ∉ tl) :=
  ⟨(DialAndServeTLS_dial_config sampleExt sampleHeap "tcp" "example:443" none).2.1
      0 ⟨none, none, ()⟩ rfl rfl,
    (DialAndServeTLS_dial_config sampleExt sampleHeap "tcp" "example:443" none).2.2
      1 ⟨some [], none, ()⟩ [] rfl rfl,
    (DialAndServeTLS_dial_config sampleExt sampleHeap "tcp" "example:443" none).2.2
      2 ⟨some ["spdy/3"], none, ()⟩ ["spdy/3"] rfl rfl⟩

/-- C6: when the dial fails, `DialAndServeTLS` returns exactly the dial's
error and the only external call it makes is that one dial: no second dial
and no `ServeConn`. -/
theorem DialAndServeTLS_dial_failure {R : Type} [Inhabited R] (ext : Extern R) (hp : Heap R)
    (network addr : String) (config : Option Nat) (h : Handler)
    (hvalid : ∀ p, config = some p → p < hp.length) :
    (∃ cfg, (DialAndServeTLS ext hp network addr config h).2.2.head? =
        some (.tlsDial network addr cfg)) ∧
    (∀ cfg conn err,
      Event.tlsDial network addr cfg ∈ (DialAndServeTLS ext hp network addr config h).2.2 →
      ext.Dial network addr cfg = (conn, some err) →
      (DialAndServeTLS ext hp network addr config h).1 = .ret (some err) ∧
        (DialAndServeTLS ext hp network addr config h).2.2 = [.tlsDial network addr cfg] ∧
        ∀ srv c, Event.serveConn srv c ∉ (DialAndServeTLS ext hp network addr config h).2.2) := by
  obtain ⟨cfg, ⟨conn, err, hd, hrun⟩ | ⟨conn, hd, hrun⟩⟩ :=
    DialAndServeTLS_cases ext hp network addr config h hvalid
  · refine ⟨⟨cfg, by rw [hrun]; rfl⟩, fun cfg1 conn1 err1 hmem hdial => ?_⟩
    rw [hrun] at hmem ⊢
    simp only [List.mem_singleton, Event.tlsDial.injEq, true_and] at hmem
    subst hmem
    rw [hd] at hdial
    simp only [Prod.mk.injEq, Option.some.injEq] at hdial
    obtain ⟨-, herr⟩ := hdial
    subst herr
    simp
  · refine ⟨⟨cfg, by rw [hrun]; rfl⟩, fun cfg1 conn1 err1 hmem hdial => ?_⟩
    rw [hrun] at hmem
    simp only [List.mem_cons, Event.tlsDial.injEq, true_and, List.mem_singleton,
      reduceCtorEq, or_false, List.not_mem_nil] at hmem
    subst hmem
    rw [hd] at hdial
    simp at hdial

/-- Witness for C6: a refused dial to "nowhere:1". -/
theorem DialAndServeTLS_dial_failure_witness :
    (DialAndServeTLS sampleExt sampleHeap "tcp" "nowhere:1" none (some 1)).1 =
      .ret (some ⟨"dial: connection refused"⟩) ∧
    (DialAndServeTLS sampleExt sampleHeap "tcp" "nowhere:1" none (some 1)).2.2 =
      [.tlsDial "tcp" "nowhere:1" ⟨some ["rspdy/3"], none, ()⟩] ∧
    ∀ srv c, Event.serveConn srv c ∉
      (DialAndServeTLS sampleExt sampleHeap "tcp" "nowhere:1" none (some 1)).2.2 :=
  (DialAndServeTLS_dial_failure sampleExt sampleHeap "tcp" "nowhere:1" none (some 1)
    (fun p hp => Option.noConfusion hp)).2
    ⟨some ["rspdy/3"], none, ()⟩ none ⟨"dial: connection refused"⟩ (by decide) (by decide)

/-- C10: `DialAndServeTLS` leaves the caller's configuration unchanged.  For a
non-nil `config`, the heap after the call is the heap before it followed by
one new cell (the private copy), so the caller's struct, like every other
existing cell, holds the value it held before, and a nil NextProtos stays nil.
For a nil `config` the call does not panic: it returns the dial's error or
what `ServeConn` returns for the default configuration. -/
theorem DialAndServeTLS_config_unchanged {R : Type} [Inhabited R] (ext : Extern R)
    (hp : Heap R) (network addr : String) (h : Handler) :
    (∀ (p : Nat) (c : Config R), hp[p]? = some c →
      (∃ cfg, (DialAndServeTLS ext hp network addr (some p) h).2.1 = hp ++ [cfg]) ∧
      (DialAndServeTLS ext hp network addr (some p) h).2.1[p]? = some c ∧
      (c.NextProtos = none →
        ∃ c1, (DialAndServeTLS ext hp network addr (some p) h).2.1[p]? = some c1 ∧
          c1.NextProtos = none) ∧
      (∀ (q : Nat) (d : Config R), hp[q]? = some d →
        (DialAndServeTLS ext hp network addr (some p) h).2.1[q]? = some d)) ∧
    ((DialAndServeTLS ext hp network addr none h).1 ≠ .panic ∧
      (DialAndServeTLS ext hp network addr none h).1 =
        .ret (match ext.Dial network addr
            { NextProtos := some ["rspdy/3"], Certificates := none, rest := default } with
          | (_, some err) => some err
          | (conn, none) => ext.ServeConn { Handler := h } conn) ∧
      (∀ (q : Nat) (d : Config R), hp[q]? = some d →
        (DialAndServeTLS ext hp network addr none h).2.1[q]? = some d)) := by
  have hheap : ∀ config cfg0,
      ((config = none ∧ cfg0 = Config.zero) ∨ (∃ p, config = some p ∧ hp[p]? = some cfg0)) →
      (DialAndServeTLS ext hp network addr config h).2.1 =
        hp ++ [match cfg0.NextProtos with
          | none => { cfg0 with NextProtos := some ["rspdy/3"] }
          | some _ => cfg0] := by
    intro config cfg0 hcfg0
    rw [DialAndServeTLS_eq ext hp network addr config h cfg0 hcfg0]
    rcases ext.Dial network addr (match cfg0.NextProtos with
      | none => { cfg0 with NextProtos := some ["rspdy/3"] }
      | some _ => cfg0) with ⟨conn, _ | err⟩ <;> rfl
  refine ⟨fun p c hc => ?_, ?_, ?_, ?_⟩
  · have hh := hheap (some p) c (Or.inr ⟨p, rfl, hc⟩)
    refine ⟨⟨_, hh⟩, ?_, fun hnil => ⟨c, ?_, hnil⟩, fun q d hd => ?_⟩
    · rw [hh]; exact Heap.getElem?_old hp _ c p hc
    · rw [hh]; exact Heap.getElem?_old hp _ c p hc
    · rw [hh]; exact Heap.getElem?_old hp _ d q hd
  · rw [DialAndServeTLS_eq ext hp network addr none h Config.zero (Or.inl ⟨rfl, rfl⟩)]
    simp only [Config.zero]
    rcases ext.Dial network addr
      { NextProtos := some ["rspdy/3"], Certificates := none, rest := default }
      with ⟨conn, _ | err⟩ <;> simp
  · rw [DialAndServeTLS_eq ext hp network addr none h Config.zero (Or.inl ⟨rfl, rfl⟩)]
    simp only [Config.zero]
    rcases ext.Dial network addr
      { NextProtos := some ["rspdy/3"], Certificates := none, rest := default }
      with ⟨conn, _ | err⟩ <;> rfl
  · intro q d hd
    rw [hheap none Config.zero (Or.inl ⟨rfl, rfl⟩)]
    exact Heap.getElem?_old hp _ d q hd

/-- Witness for C10: the caller's cell 0, whose NextProtos is nil, after a
served dial; and a nil `config`. -/
theorem DialAndServeTLS_config_unchanged_witness :
    ((∃ cfg, (DialAndServeTLS sampleExt sampleHeap "tcp" "example:443" (some 0) none).2.1 =
        sampleHeap ++ [cfg]) ∧
      (DialAndServeTLS sampleExt sampleHeap "tcp" "example:443" (some 0) none).2.1[0]? =
        some ⟨none, none, ()⟩ ∧
      ((⟨none, none, ()⟩ : Config Unit).NextProtos = none →
        ∃ c1, (DialAndServeTLS sampleExt sampleHeap "tcp" "example:443" (some 0) none).2.1[0]? =
            some c1 ∧ c1.NextProtos = none) ∧
      (∀ (q : Nat) (d : Config Unit), sampleHeap[q]? = some d →
        (DialAndServeTLS sampleExt sampleHeap "tcp" "example:443" (some 0) none).2.1[q]? =
          some d)) ∧
    (DialAndServeTLS sampleExt sampleHeap "tcp" "example:443" (some 0) none).2.1 =
      sampleHeap ++ [⟨some ["rspdy/3"], none, ()⟩] ∧
    (DialAndServeTLS sampleExt sampleHeap "tcp" "example:443" none none).1 =
      .ret (some ⟨"EOF"⟩) :=
  ⟨(DialAndServeTLS_config_unchanged sampleExt sampleHeap "tcp" "example:443" none).1
      0 ⟨none, none, ()⟩ rfl,
    by decide, by decide⟩

/-! ## Listening side -/

/-- Closed form of `ListenTLS`: the configuration it builds is NextProtos
["rspdy/3"], the one loaded certificate, and zero everywhere else. -/
theorem ListenTLS_eq {R : Type} [Inhabited R] (ext : Extern R)
    (addr certFile keyFile : String) :
    ListenTLS ext addr certFile keyFile =
      match ext.LoadX509KeyPair certFile keyFile with
      | (_, some err) => ((none, some err), [.loadX509KeyPair certFile keyFile])
      | (cert, none) =>
        match ext.Listen "tcp" addr
            { NextProtos := some ["rspdy/3"], Certificates := some [cert], rest := default } with
        | (_, some err) =>
          ((none, some err),
            [.loadX509KeyPair certFile keyFile,
              .tlsListen "tcp" addr
                { NextProtos := some ["rspdy/3"], Certificates := some [cert],
                  rest := default }])
        | (l, none) =>
          ((some { l := l }, none),
            [.loadX509KeyPair certFile keyFile,
              .tlsListen "tcp" addr
                { NextProtos := some ["rspdy/3"], Certificates := some [cert],
                  rest := default }]) := by
  unfold ListenTLS
  rcases hload : ext.LoadX509KeyPair certFile keyFile with ⟨cert, _ | err⟩
  · simp only [Config.zero, List.replicate, Option.map_some', List.set_cons_zero]
  · simp only [Config.zero, List.replicate, Option.map_some', List.set_cons_zero]

/-- C8: the three outcomes of `ListenTLS`.  If loading the key pair fails, it
returns nil and that error and the only call made is the load (no listen).
If loading succeeds and listening fails, it returns nil and the listen error.
Otherwise it returns a Listener wrapping what `tls.Listen` returned for
network "tcp", the given address and a configuration whose certificates are
exactly the loaded one, with a nil error.  In every outcome exactly one of
the Listener and the error is non-nil. -/
theorem ListenTLS_outcomes {R : Type} [Inhabited R] (ext : Extern R)
    (addr certFile keyFile : String) :
    (∀ cert err, ext.LoadX509KeyPair certFile keyFile = (cert, some err) →
      ListenTLS ext addr certFile keyFile =
        ((none, some err), [.loadX509KeyPair certFile keyFile])) ∧
    (∀ cert l err, ext.LoadX509KeyPair certFile keyFile = (cert, none) →
      ext.Listen "tcp" addr
          { NextProtos := some ["rspdy/3"], Certificates := some [cert], rest := default }
        = (l, some err) →
      ListenTLS ext addr certFile keyFile =
        ((none, some err),
          [.loadX509KeyPair certFile keyFile,
            .tlsListen "tcp" addr
              { NextProtos := some ["rspdy/3"], Certificates := some [cert],
                rest := default }])) ∧
    (∀ cert l, ext.LoadX509KeyPair certFile keyFile = (cert, none) →
      ext.Listen "tcp" addr
          { NextProtos := some ["rspdy/3"], Certificates := some [cert], rest := default }
        = (l, none) →
      ListenTLS ext addr certFile keyFile =
        ((some { l := l }, none),
          [.loadX509KeyPair certFile keyFile,
            .tlsListen "tcp" addr
              { NextProtos := some ["rspdy/3"], Certificates := some [cert],
                rest := default }])) ∧
    (((ListenTLS ext addr certFile keyFile).1.1.isSome = true ∧
        (ListenTLS ext addr certFile keyFile).1.2 = none) ∨
      ((ListenTLS ext addr certFile keyFile).1.1 = none ∧
        (ListenTLS ext addr certFile keyFile).1.2.isSome = true)) := by
  rw [ListenTLS_eq]
  refine ⟨fun cert err hload => ?_, fun cert l err hload hlisten => ?_,
    fun cert l hload hlisten => ?_, ?_⟩
  · simp only [hload]
  · simp only [hload, hlisten]
  · simp only [hload, hlisten]
  · rcases hload : ext.LoadX509KeyPair certFile keyFile with ⟨cert, _ | err⟩
    · rcases hlisten : ext.Listen "tcp" addr
        { NextProtos := some ["rspdy/3"], Certificates := some [cert], rest := default }
        with ⟨l, _ | err⟩ <;> simp [hlisten]
    · simp

/-- Witness for C8: a missing certificate file, an address in use, and a
successful listen on ":443". -/
theorem ListenTLS_outcomes_witness :
    ListenTLS sampleExt ":443" "missing.pem" "key.pem" =
      ((none, some ⟨"open: no such file"⟩), [.loadX509KeyPair "missing.pem" "key.pem"]) ∧
    ListenTLS sampleExt ":80" "cert.pem" "key.pem" =
      ((none, some ⟨"listen: address in use"⟩),
        [.loadX509KeyPair "cert.pem" "key.pem",
          .tlsListen "tcp" ":80" ⟨some ["rspdy/3"], some [⟨[1]⟩], ()⟩]) ∧
    ListenTLS sampleExt ":443" "cert.pem" "key.pem" =
      ((some ⟨some ⟨(some (.other 0), none)⟩⟩, none),
        [.loadX509KeyPair "cert.pem" "key.pem",
          .tlsListen "tcp" ":443" ⟨some ["rspdy/3"], some [⟨[1]⟩], ()⟩]) :=
  ⟨(ListenTLS_outcomes sampleExt ":443" "missing.pem" "key.pem").1
      default ⟨"open: no such file"⟩ (by decide),
    (ListenTLS_outcomes sampleExt ":80" "cert.pem" "key.pem").2.1
      ⟨[1]⟩ none ⟨"listen: address in use"⟩ (by decide) (by decide),
    (ListenTLS_outcomes sampleExt ":443" "cert.pem" "key.pem").2.2.1
      ⟨[1]⟩ (some ⟨(some (.other 0), none)⟩) (by decide) (by decide)⟩

/-! ## The protocol identifier -/

/-- C7: one literal on all three sides.  Every configuration `ListenTLS`
listens with advertises exactly ["rspdy/3"]; a dial with a default
configuration (nil `config`, or a nil NextProtos) offers exactly ["rspdy/3"];
and on a TLS connection whose handshake succeeds `AcceptSPDY` yields a session
exactly when "rspdy/3" was negotiated.  Hence a protocol offered by both such
a dialer and such a listener passes the accept-side check and gives a session.
The literal is not "spdy/3". -/
theorem protocol_identifier_consistent {R : Type} [Inhabited R] (ext : Extern R)
    (hp : Heap R) (network addr : String) (config : Option Nat) (h : Handler)
    (addrL certFile keyFile : String)
    (hdefault : config = none ∨
      ∃ (p : Nat) (c : Config R), config = some p ∧ hp[p]? = some c ∧ c.NextProtos = none) :
    (∀ cert, ext.LoadX509KeyPair certFile keyFile = (cert, none) →
      ∃ cfg, Event.tlsListen "tcp" addrL cfg ∈ (ListenTLS ext addrL certFile keyFile).2) ∧
    (∀ n a cfg, Event.tlsListen n a cfg ∈ (ListenTLS ext addrL certFile keyFile).2 →
      cfg.NextProtos = some ["rspdy/3"]) ∧
    (∃ cfg, Event.tlsDial network addr cfg ∈
      (DialAndServeTLS ext hp network addr config h).2.2) ∧
    (∀ n a cfg, Event.tlsDial n a cfg ∈ (DialAndServeTLS ext hp network addr config h).2.2 →
      cfg.NextProtos = some ["rspdy/3"]) ∧
    (∀ (l : Listener) (nl : NetListener) (c : TLSConn), l.l = some nl →
      nl.Accept = (some (.tls c), none) → c.handshakeErr = none →
      ((∃ sess, (l.AcceptSPDY R).1 = .ret (some sess, none)) ↔
        c.NegotiatedProtocol = "rspdy/3")) ∧
    (∀ (nD aD nL aL : String) (cfgD cfgL : Config R) (s : String),
      Event.tlsDial nD aD cfgD ∈ (DialAndServeTLS ext hp network addr config h).2.2 →
      Event.tlsListen nL aL cfgL ∈ (ListenTLS ext addrL certFile keyFile).2 →
      (∃ ps, cfgD.NextProtos = some ps ∧ s ∈ ps) →
      (∃ qs, cfgL.NextProtos = some qs ∧ s ∈ qs) →
      ∀ (l : Listener) (nl : NetListener) (c : TLSConn), l.l = some nl →
        nl.Accept = (some (.tls c), none) → c.handshakeErr = none →
        c.NegotiatedProtocol = s →
        (l.AcceptSPDY R).1 = .ret (some (NewConn (some (.tls c))), none)) ∧
    "rspdy/3" ≠ "spdy/3" := by
  have hlisten : ∀ n a cfg,
      Event.tlsListen n a cfg ∈ (ListenTLS ext addrL certFile keyFile).2 →
      cfg.NextProtos = some ["rspdy/3"] := by
    intro n a cfg hmem
    rw [ListenTLS_eq] at hmem
    rcases hload : ext.LoadX509KeyPair certFile keyFile with ⟨cert, _ | err⟩
    · rw [hload] at hmem
      rcases hl : ext.Listen "tcp" addrL
        { NextProtos := some ["rspdy/3"], Certificates := some [cert], rest := default }
        with ⟨l, _ | err⟩
      · simp [hl] at hmem
        rw [hmem.2.2]
      · simp [hl] at hmem
        rw [hmem.2.2]
    · rw [hload] at hmem
      simp at hmem
  have hdial : ∃ cfg0 : Config R, cfg0.NextProtos = none ∧
      ((config = none ∧ cfg0 = Config.zero) ∨
        (∃ p, config = some p ∧ hp[p]? = some cfg0)) := by
    rcases hdefault with hnil | ⟨p, c, hsome, hc, hnp⟩
    · exact ⟨Config.zero, rfl, Or.inl ⟨hnil, rfl⟩⟩
    · exact ⟨c, hnp, Or.inr ⟨p, hsome, hc⟩⟩
  obtain ⟨cfg0, hnp, hcfg0⟩ := hdial
  have htrace : (DialAndServeTLS ext hp network addr config h).2.2 =
        [.tlsDial network addr { cfg0 with NextProtos := some ["rspdy/3"] }] ∨
      ∃ conn, (DialAndServeTLS ext hp network addr config h).2.2 =
        [.tlsDial network addr { cfg0 with NextProtos := some ["rspdy/3"] },
          .serveConn { Handler := h } conn] := by
    rw [DialAndServeTLS_eq ext hp network addr config h cfg0 hcfg0]
    simp only [hnp]
    rcases ext.Dial network addr
      { NextProtos := some ["rspdy/3"], Certificates := cfg0.Certificates, rest := cfg0.rest }
      with ⟨conn, _ | err⟩
    · exact Or.inr ⟨conn, rfl⟩
    · exact Or.inl rfl
  have hoffer : ∀ n a cfg,
      Event.tlsDial n a cfg ∈ (DialAndServeTLS ext hp network addr config h).2.2 →
      cfg.NextProtos = some ["rspdy/3"] := by
    intro n a cfg hmem
    rcases htrace with htr | ⟨conn, htr⟩
    · rw [htr] at hmem
      simp at hmem
      rw [hmem.2.2]
    · rw [htr] at hmem
      simp at hmem
      rw [hmem.2.2]
  have haccept : ∀ (l : Listener) (nl : NetListener) (c : TLSConn), l.l = some nl →
      nl.Accept = (some (.tls c), none) → c.handshakeErr = none →
      c.NegotiatedProtocol = "rspdy/3" →
      (l.AcceptSPDY R).1 = .ret (some (NewConn (some (.tls c))), none) := by
    intro l nl c hl hacc hhs hproto
    simp [Listener.AcceptSPDY, Listener.accept, hl, hacc, hhs, hproto]
  refine ⟨?_, hlisten, ?_, hoffer, ?_, ?_, by decide⟩
  · intro cert hload
    rw [ListenTLS_eq, hload]
    rcases hl : ext.Listen "tcp" addrL
      { NextProtos := some ["rspdy/3"], Certificates := some [cert], rest := default }
      with ⟨l, _ | err⟩ <;>
      exact ⟨{ NextProtos := some ["rspdy/3"], Certificates := some [cert], rest := default },
        by simp [hl]⟩
  · rcases htrace with htr | ⟨conn, htr⟩ <;>
      exact ⟨{ cfg0 with NextProtos := some ["rspdy/3"] }, by rw [htr]; simp⟩
  · intro l nl c hl hacc hhs
    by_cases hproto : c.NegotiatedProtocol = "rspdy/3"
    · simp [Listener.AcceptSPDY, Listener.accept, hl, hacc, hhs, hproto]
    · simp [Listener.AcceptSPDY, Listener.accept, hl, hacc, hhs, hproto]
  · intro nD aD nL aL cfgD cfgL s hD hL hsD hsL l nl c hl hacc hhs hproto
    obtain ⟨ps, hps, hmem⟩ := hsD
    rw [hoffer nD aD cfgD hD] at hps
    simp only [Option.some.injEq] at hps
    subst hps
    simp only [List.mem_singleton] at hmem
    subst hmem
    exact haccept l nl c hl hacc hhs hproto

/-- Witness for C7: a default dial to "example:443", a listener on ":443", and
an accepted connection that negotiated the identifier both sides offer. -/
theorem protocol_identifier_consistent_witness :
    Event.tlsDial "tcp" "example:443" ⟨some ["rspdy/3"], none, ()⟩ ∈
      (DialAndServeTLS sampleExt sampleHeap "tcp" "example:443" (some 0) none).2.2 ∧
    Event.tlsListen "tcp" ":443" ⟨some ["rspdy/3"], some [⟨[1]⟩], ()⟩ ∈
      (ListenTLS sampleExt ":443" "cert.pem" "key.pem").2 ∧
    (Listener.AcceptSPDY Unit ⟨some ⟨(some (.tls ⟨2, none, "rspdy/3"⟩), none)⟩⟩).1 =
      .ret (some (NewConn (some (.tls ⟨2, none, "rspdy/3"⟩))), none) :=
  ⟨by decide, by decide,
    (protocol_identifier_consistent sampleExt sampleHeap "tcp" "example:443" (some 0) none
      ":443" "cert.pem" "key.pem"
      (Or.inr ⟨0, ⟨none, none, ()⟩, rfl, rfl, rfl⟩)).2.2.2.2.2.1
      "tcp" "example:443" "tcp" ":443"
      ⟨some ["rspdy/3"], none, ()⟩ ⟨some ["rspdy/3"], some [⟨[1]⟩], ()⟩ "rspdy/3"
      (by decide) (by decide) ⟨["rspdy/3"], rfl, by decide⟩ ⟨["rspdy/3"], rfl, by decide⟩
      ⟨some ⟨(some (.tls ⟨2, none, "rspdy/3"⟩), none)⟩⟩
      ⟨(some (.tls ⟨2, none, "rspdy/3"⟩), none)⟩ ⟨2, none, "rspdy/3"⟩ rfl rfl rfl rfl⟩

end Rspdy
